import Mathlib

/-!
Shallow embedding of the backend-ramsis server (src/backend/server.js,
src/backend/models/vehicle.js, and the Reservation model) together with
theorems settling the specification claims about it.

Conventions of the embedding:
* JavaScript strings are Lean `String`s; `String.prototype.toLowerCase`
  is modelled character-wise with `Char.toLower` (the filenames and media
  types involved are ASCII, where the two agree).
* `Date.now()` and `Math.round(Math.random() * 1E9)` are modelled as
  `Nat` parameters supplied by the environment.
* MongoDB documents are modelled as Lean structures mirroring the mongoose
  schemas; the collection is a list in insertion (natural) order.
* A handler that ends in `res.status(s).json(b)` is modelled as a function
  returning a `Resp` record holding the status, the `message` field, the
  `error` field, and the data payload of the JSON body.
-/

/-! ### String utilities: lower-casing and regex substring test -/

/-- Character-wise model of JavaScript `toLowerCase` (ASCII-faithful). -/
def lowerStr (s : String) : String :=
  String.mk (s.data.map Char.toLower)

/-- Executable substring test: `substrTest pat s` is true when `pat`
occurs contiguously inside `s`.  This models what the flag-free JavaScript
regex `/jpeg|jpg|png|gif/.test(s)` does for the literal alternatives: a
case-sensitive containment check, not an equality check. -/
def substrTest (pat : List Char) : List Char → Bool
  | [] => pat.isPrefixOf []
  | c :: cs => pat.isPrefixOf (c :: cs) || substrTest pat cs

theorem substrTest_iff (pat : List Char) : ∀ s, substrTest pat s = true ↔ pat <:+: s := by
  intro s
  induction s with
  | nil =>
    simp [substrTest, List.isPrefixOf_iff_prefix]
  | cons c cs ih =>
    simp [substrTest, List.isPrefixOf_iff_prefix, List.infix_cons_iff, ih]

/-! ### path.extname (Node, posix) -/

/-- The suffix of the list starting at its last '.' character, when it has
one. -/
def lastDotSuffix : List Char → Option (List Char)
  | [] => none
  | c :: rest =>
    match lastDotSuffix rest with
    | some e => some e
    | none => if c = '.' then some (c :: rest) else none

/-- Strip trailing '/' characters, as Node path handling ignores them when
isolating the final path segment. -/
def dropTrailingSlashes (s : List Char) : List Char :=
  (s.reverse.dropWhile (fun c => c = '/')).reverse

/-- The characters after the last '/' of the list. -/
def afterLastSlash (s : List Char) : List Char :=
  s.foldl (fun acc c => if c = '/' then [] else acc ++ [c]) []

/-- Model of Node `path.extname` on the character list of the path: take
the final segment, and return everything from its last '.' on, except
that a '.' opening the segment (hidden files) does not begin an
extension, and the special segment ".." has no extension. -/
def extnameList (s : List Char) : List Char :=
  match afterLastSlash (dropTrailingSlashes s) with
  | [] => []
  | c :: rest =>
    if c :: rest = ['.', '.'] then []
    else (lastDotSuffix rest).getD []

/-- Model of Node `path.extname`: the extension of the path, including the
leading dot, or the empty string. -/
def extname (s : String) : String :=
  String.mk (extnameList s.data)

theorem lastDotSuffix_head : ∀ (l e : List Char), lastDotSuffix l = some e →
    ∃ t, e = '.' :: t := by
  intro l
  induction l with
  | nil => intro e h; simp [lastDotSuffix] at h
  | cons c rest ih =>
    intro e h
    simp only [lastDotSuffix] at h
    cases hrec : lastDotSuffix rest with
    | some e0 =>
      rw [hrec] at h
      exact ih e (by simp_all)
    | none =>
      rw [hrec] at h
      by_cases hc : c = '.'
      · simp [hc] at h
        exact ⟨rest, by simp [← h, hc]⟩
      · simp [hc] at h

/-- The extension computed by `extname` is empty or starts with a dot. -/
theorem extnameList_shape (s : List Char) :
    extnameList s = [] ∨ ∃ t, extnameList s = '.' :: t := by
  unfold extnameList
  cases h : afterLastSlash (dropTrailingSlashes s) with
  | nil => exact Or.inl rfl
  | cons c rest =>
    by_cases hdd : c :: rest = ['.', '.']
    · simp [hdd]
    · simp only [hdd, if_false]
      cases hls : lastDotSuffix rest with
      | none => exact Or.inl rfl
      | some e =>
        rcases lastDotSuffix_head rest e hls with ⟨t, rfl⟩
        exact Or.inr ⟨t, rfl⟩

/-! ### Upload validator and filename generator (server.js lines 46-72) -/

/-- Model of `/jpeg|jpg|png|gif/.test(s)`: the regex has no anchors and no
case-insensitive flag, so it succeeds exactly when one of the four
literal alternatives occurs as a substring of `s`, case-sensitively. -/
def regexTest (s : String) : Bool :=
  substrTest "jpeg".data s.data || substrTest "jpg".data s.data ||
  substrTest "png".data s.data || substrTest "gif".data s.data

/-- Model of the multer `fileFilter` (server.js lines 59-68): accept when
the regex matches the raw mimetype and matches the lower-cased
`path.extname` of the original filename; otherwise signal the error
"Only image files (jpg, jpeg, png, gif) are allowed!". -/
def fileFilter (mimetype originalname : String) : Bool :=
  regexTest mimetype && regexTest (lowerStr (extname originalname))

/-- Model of the `multer.diskStorage` filename callback (server.js lines
50-54): `Date.now() + '-' + Math.round(Math.random() * 1E9)` followed by
the lower-cased extension of the original name (which includes its
leading dot when nonempty). -/
def filenameFor (nowMs rand : Nat) (originalname : String) : String :=
  toString nowMs ++ "-" ++ toString rand ++ lowerStr (extname originalname)

/-! ### Mongoose schemas (models/vehicle.js and the Reservation model) -/

/-- The nested `specs` subdocument of `vehicleSchema`. -/
structure SpecsDoc where
  transmission : String
  fuel : String
  power : Option String
  seats : Nat
  consumption : String
  luggage : Option String
deriving DecidableEq

/-- A persisted Vehicle document.  `vehicleSchema` (models/vehicle.js lines
3-60) declares name, image, gallery, price, features, description, rating,
isPopular and specs, and no `createdAt` path and no timestamps option: a
stored vehicle carries no creation time. -/
structure VehicleDoc where
  name : String
  image : String
  gallery : List String
  price : String
  features : List String
  description : String
  rating : Nat
  isPopular : Bool
  specs : SpecsDoc
deriving DecidableEq

/-- A persisted Reservation document, per `reservationSchema`. -/
structure ReservationDoc where
  vehicleId : String
  vehicleName : String
  startDate : Nat
  endDate : Nat
  licenseNumber : String
  pickupLocation : String
  dropoffLocation : String
  status : String
  createdAt : Nat
deriving DecidableEq

/-- A request body for creating or updating a Reservation: every schema
path may be present or absent. -/
structure ReservationBody where
  vehicleId : Option String
  vehicleName : Option String
  startDate : Option Nat
  endDate : Option Nat
  licenseNumber : Option String
  pickupLocation : Option String
  dropoffLocation : Option String
  status : Option String
  createdAt : Option Nat
deriving DecidableEq

/-- The `enum` values declared on `reservationSchema.status`. -/
def statusEnum : List String := ["en attente", "en cours", "terminé"]

/-- All the paths `reservationSchema` marks `required` are present. -/
def requiredPresent (b : ReservationBody) : Bool :=
  b.vehicleId.isSome && b.vehicleName.isSome && b.startDate.isSome && b.endDate.isSome &&
  b.licenseNumber.isSome && b.pickupLocation.isSome && b.dropoffLocation.isSome

/-- Model of `new Reservation(req.body)` followed by `save()`: mongoose
checks every `required` path is present, applies the declared defaults
(status "en attente", createdAt `Date.now`), and validates `status`
against the enum; a violation raises a validation error, which the POST
handler turns into a 400.  The `getD` defaults on the required paths are
never reached: the guard ensures each is present. -/
def createReservation (now : Nat) (b : ReservationBody) : Except String ReservationDoc :=
  if requiredPresent b && statusEnum.contains (b.status.getD "en attente") then
    Except.ok ⟨b.vehicleId.getD "", b.vehicleName.getD "", b.startDate.getD 0,
               b.endDate.getD 0, b.licenseNumber.getD "", b.pickupLocation.getD "",
               b.dropoffLocation.getD "", b.status.getD "en attente", b.createdAt.getD now⟩
  else
    Except.error "Reservation validation failed"

/-- Model of `Reservation.findByIdAndUpdate(id, body, \x7b new: true,
runValidators: true \x7d)` applied to a found document: each provided
path is `$set`, the others keep their stored values, and `runValidators`
re-checks the enum on an updated `status` path.  Nothing in the schema
marks `createdAt` immutable, so a provided `createdAt` is written like
any other path. -/
def updateReservation (doc : ReservationDoc) (b : ReservationBody) :
    Except String ReservationDoc :=
  if b.status.all (fun s => statusEnum.contains s) then
    Except.ok ⟨b.vehicleId.getD doc.vehicleId, b.vehicleName.getD doc.vehicleName,
               b.startDate.getD doc.startDate, b.endDate.getD doc.endDate,
               b.licenseNumber.getD doc.licenseNumber, b.pickupLocation.getD doc.pickupLocation,
               b.dropoffLocation.getD doc.dropoffLocation, b.status.getD doc.status,
               b.createdAt.getD doc.createdAt⟩
  else
    Except.error "Validation failed: status is not a valid enum value"

/-! ### The list endpoints and their sort (server.js lines 142-149, 202-209)

`Vehicle.find().sort(\x7b createdAt: -1 \x7d)` asks MongoDB for a sort on
the `createdAt` field, descending, with no secondary key.  Documents on
which the field is missing compare as null, below every date; MongoDB
promises nothing about the relative order of documents whose sort keys
tie.  The model realizes one admissible outcome with a stable sort over
the collection in insertion order, so tied documents stay in insertion
order. -/

/-- Sort key: a missing `createdAt` (`none`) sorts below every present
date. -/
def keyVal : Option Nat → Nat
  | none => 0
  | some n => n + 1

/-- Stable descending insertion: `x` is placed before the first element
whose key is strictly smaller, hence after all earlier elements with the
same key. -/
def insertDesc {α : Type} (key : α → Option Nat) (x : α) : List α → List α
  | [] => [x]
  | y :: ys =>
    if keyVal (key y) < keyVal (key x) then x :: y :: ys
    else y :: insertDesc key x ys

/-- Stable sort of the collection (in insertion order) by `createdAt`
descending. -/
def sortDesc {α : Type} (key : α → Option Nat) (l : List α) : List α :=
  l.foldl (fun acc x => insertDesc key x acc) []

/-- `GET /api/vehicles`: `Vehicle.find().sort(\x7b createdAt: -1 \x7d)`.
The vehicle schema declares no `createdAt` path, so the sort field is
missing on every document and every pair of documents ties. -/
def listVehiclesSorted (store : List VehicleDoc) : List VehicleDoc :=
  sortDesc (fun _ => none) store

/-- `GET /api/reservations`: `Reservation.find().sort(\x7b createdAt: -1 \x7d)`;
reservations carry their `createdAt` path. -/
def listReservationsSorted (store : List ReservationDoc) : List ReservationDoc :=
  sortDesc (fun r => some r.createdAt) store

/-! ### HTTP responses and route handlers (server.js lines 98-255) -/

/-- The observable JSON response of a handler: the HTTP status, the
`message` field, the `error` field, and the data payload (the entity or
list returned on success), when any. -/
structure Resp (α : Type) where
  status : Nat
  message : Option String
  errorDetail : Option String
  payload : Option α
deriving DecidableEq

/-- The fallback error-handling middleware (server.js lines 99-105):
always 500 with the generic message, attaching `err.message` only when
`process.env.NODE_ENV === 'development'`. -/
def errorHandlerResp (α : Type) (nodeEnv errMessage : String) : Resp α :=
  ⟨500, some "Something went wrong!",
   if nodeEnv = "development" then some errMessage else none, none⟩

/-- `GET /api/vehicles` handler (lines 142-149): 200 with the sorted list,
or 500 with the message and `error.message` when the query throws. -/
def listVehiclesResp (r : Except String (List VehicleDoc)) : Resp (List VehicleDoc) :=
  match r with
  | Except.ok vs => ⟨200, none, none, some vs⟩
  | Except.error e => ⟨500, some "Error fetching vehicles", some e, none⟩

/-- `GET /api/vehicles/:id` handler (lines 151-161): 200 with the vehicle,
404 when `findById` resolves null, 500 with `error.message` when it
throws. -/
def getVehicleByIdResp (r : Except String (Option VehicleDoc)) : Resp VehicleDoc :=
  match r with
  | Except.ok (some v) => ⟨200, none, none, some v⟩
  | Except.ok none => ⟨404, some "Vehicle not found", none, none⟩
  | Except.error e => ⟨500, some "Error fetching vehicle", some e, none⟩

/-- `POST /api/vehicles` handler (lines 163-171): 201 on success, and 400
with `error.message` on any thrown error, whatever its nature. -/
def postVehicleResp (r : Except String VehicleDoc) : Resp VehicleDoc :=
  match r with
  | Except.ok v => ⟨201, none, none, some v⟩
  | Except.error e => ⟨400, some "Error creating vehicle", some e, none⟩

/-- `PUT /api/vehicles/:id` handler (lines 173-187): 200 with the updated
document, 404 when `findByIdAndUpdate` resolves null, and 400 with
`error.message` on any thrown error. -/
def putVehicleResp (r : Except String (Option VehicleDoc)) : Resp VehicleDoc :=
  match r with
  | Except.ok (some v) => ⟨200, none, none, some v⟩
  | Except.ok none => ⟨404, some "Vehicle not found", none, none⟩
  | Except.error e => ⟨400, some "Error updating vehicle", some e, none⟩

/-- `DELETE /api/vehicles/:id` handler (lines 189-199). -/
def deleteVehicleResp (r : Except String (Option VehicleDoc)) : Resp Unit :=
  match r with
  | Except.ok (some _) => ⟨200, some "Vehicle deleted successfully", none, some ()⟩
  | Except.ok none => ⟨404, some "Vehicle not found", none, none⟩
  | Except.error e => ⟨500, some "Error deleting vehicle", some e, none⟩

/-- `GET /api/reservations` handler (lines 202-209). -/
def listReservationsResp (r : Except String (List ReservationDoc)) : Resp (List ReservationDoc) :=
  match r with
  | Except.ok rs => ⟨200, none, none, some rs⟩
  | Except.error e => ⟨500, some "Error fetching reservations", some e, none⟩

/-- `POST /api/reservations` handler (lines 211-219). -/
def postReservationResp (r : Except String ReservationDoc) : Resp ReservationDoc :=
  match r with
  | Except.ok v => ⟨201, none, none, some v⟩
  | Except.error e => ⟨400, some "Error creating reservation", some e, none⟩

/-- `PUT /api/reservations/:id` handler (lines 221-235). -/
def putReservationResp (r : Except String (Option ReservationDoc)) : Resp ReservationDoc :=
  match r with
  | Except.ok (some v) => ⟨200, none, none, some v⟩
  | Except.ok none => ⟨404, some "Reservation not found", none, none⟩
  | Except.error e => ⟨400, some "Error updating reservation", some e, none⟩

/-- `DELETE /api/reservations/:id` handler (lines 237-247). -/
def deleteReservationResp (r : Except String (Option ReservationDoc)) : Resp Unit :=
  match r with
  | Except.ok (some _) => ⟨200, some "Reservation deleted successfully", none, some ()⟩
  | Except.ok none => ⟨404, some "Reservation not found", none, none⟩
  | Except.error e => ⟨500, some "Error deleting reservation", some e, none⟩

/-- A multipart file as multer sees it: the declared media type and the
original filename. -/
structure UploadFile where
  mimetype : String
  originalname : String
deriving DecidableEq

/-- `POST /api/upload` (lines 114-125) together with its `upload.single`
middleware.  When the field carries no file the handler replies 400; when
`fileFilter` accepts, the handler replies with the generated URL; when
`fileFilter` rejects, multer passes its error to `next`, the route
handler never runs, and the fallback `errorHandler` middleware (line 255)
produces the response. -/
def uploadSingleResp (nodeEnv : String) (nowMs rand : Nat) (file : Option UploadFile) :
    Resp String :=
  match file with
  | none => ⟨400, some "No file uploaded", none, none⟩
  | some f =>
    if fileFilter f.mimetype f.originalname then
      ⟨200, none, none, some ("/uploads/" ++ filenameFor nowMs rand f.originalname)⟩
    else
      errorHandlerResp String nodeEnv "Only image files (jpg, jpeg, png, gif) are allowed!"

/-! ### The registered route table (server.js app.get/post/put/delete calls) -/

inductive Method
  | get | post | put | delete
deriving DecidableEq

inductive PathPat
  | upload | uploadMultiple
  | vehicles | vehicleById
  | reservations | reservationById
  | health
deriving DecidableEq

/-- Every route registration appearing in server.js, in source order.
There is no registration for `GET /api/reservations/:id`. -/
def registeredRoutes : List (Method × PathPat) :=
  [(Method.post, PathPat.upload), (Method.post, PathPat.uploadMultiple),
   (Method.get, PathPat.vehicles), (Method.get, PathPat.vehicleById),
   (Method.post, PathPat.vehicles), (Method.put, PathPat.vehicleById),
   (Method.delete, PathPat.vehicleById),
   (Method.get, PathPat.reservations), (Method.post, PathPat.reservations),
   (Method.put, PathPat.reservationById), (Method.delete, PathPat.reservationById),
   (Method.get, PathPat.health)]

def hasRoute (m : Method) (p : PathPat) : Bool :=
  registeredRoutes.contains (m, p)

inductive Entity
  | vehicle | reservation
deriving DecidableEq

def byIdPat : Entity → PathPat
  | Entity.vehicle => PathPat.vehicleById
  | Entity.reservation => PathPat.reservationById

/-- Status of a GET-by-id request for an entity whose presence in the
store is `present`: when a route is registered the by-id handler answers
200 or 404 on the lookup result; when none is registered Express falls
through to its default handler, a 404 for every id, present or not. -/
def dispatchGetByIdStatus (ent : Entity) (present : Bool) : Nat :=
  if hasRoute Method.get (byIdPat ent) then (if present then 200 else 404)
  else 404

/-! ### findByIdAndUpdate as a field-map operation (server.js lines 173-187)

mongoose turns the flat `req.body` into a `$set` of exactly its top-level
keys.  The document is modelled as a partial map from field names to
values and the payload likewise; `$set` overwrites the provided keys and
leaves every other key untouched. -/

def FieldMap (α : Type) : Type := String → Option α

/-- `$set` of the payload `p` onto the stored record `r`. -/
def applySet {α : Type} (r p : FieldMap α) : FieldMap α :=
  fun k => match p k with
  | some v => some v
  | none => r k

/-- Look a record up by id in the collection. -/
def findRec {α : Type} (store : List (String × FieldMap α)) (id : String) :
    Option (FieldMap α) :=
  (store.find? (fun kv => kv.1 == id)).map (fun kv => kv.2)

/-- Model of `findByIdAndUpdate(id, body, \x7b new: true \x7d)` on a
reachable store: resolve null when the id is absent, otherwise `$set` the
provided fields and return the post-update document. -/
def findByIdAndUpdate {α : Type} (store : List (String × FieldMap α)) (id : String)
    (body : FieldMap α) : Option (FieldMap α) :=
  (findRec store id).map (fun r => applySet r body)

/-! ### ObjectId casting on GET /api/vehicles/:id (server.js lines 151-161) -/

/-- A well-formed data-store object id in its canonical string form: 24
hexadecimal characters.  `findById` casts the path parameter to an
ObjectId before querying and throws a CastError when the cast fails. -/
def isValidObjectId (s : String) : Bool :=
  s.length == 24 && s.data.all (fun c =>
    c.isDigit || ('a' ≤ c && c ≤ 'f') || ('A' ≤ c && c ≤ 'F'))

/-- Model of `Vehicle.findById(req.params.id)`: throw (CastError) on a
malformed id, otherwise resolve the document or null. -/
def vehicleFindById (store : List (String × VehicleDoc)) (id : String) :
    Except String (Option VehicleDoc) :=
  if isValidObjectId id then
    Except.ok ((store.find? (fun kv => kv.1 == id)).map (fun kv => kv.2))
  else
    Except.error "CastError"

/-- The full `GET /api/vehicles/:id` route: the lookup result fed to the
handler of lines 151-161. -/
def getVehicleByIdRoute (store : List (String × VehicleDoc)) (id : String) :
    Resp VehicleDoc :=
  getVehicleByIdResp (vehicleFindById store id)

/-! ### Claim-side validator (for the refinement comparison of C3) -/

/-- The lower-cased extension of a filename without its leading dot. -/
def extWithoutDot (f : String) : String :=
  match (lowerStr (extname f)).data with
  | '.' :: t => String.mk t
  | l => String.mk l

/-- Modelled from the spec: accept exactly when the declared media type
equals, case-insensitively, one of image/jpeg, image/png, image/gif AND
the extension of the filename equals, case-insensitively, one of jpg,
jpeg, png, gif. -/
def specUploadAccepts (mimetype originalname : String) : Bool :=
  (["image/jpeg", "image/png", "image/gif"].contains (lowerStr mimetype)) &&
  (["jpg", "jpeg", "png", "gif"].contains (extWithoutDot originalname))

/-! ## Claim C1: the Reservation status enum -/

/-- Claim C1 counterexample: creating a reservation with no status
succeeds and stores the status "en attente", which is not one of the
three literal values "pending", "in-progress", "completed" named by the
claim.  The schema enum is the French triple, not the English one. -/
theorem reservation_status_english_enum_cex :
    createReservation 0
        ⟨some "v1", some "Clio", some 1, some 2, some "TN-1234",
         some "Tunis", some "Sousse", none, none⟩
      = Except.ok ⟨"v1", "Clio", 1, 2, "TN-1234", "Tunis", "Sousse", "en attente", 0⟩ ∧
    "en attente" ∉ (["pending", "in-progress", "completed"] : List String) := by
  exact ⟨rfl, by decide⟩

/-- Claim C1 (amended): every Reservation produced by create or update has
status among exactly the three literal values "en attente", "en cours",
"terminé"; create defaults a missing status to "en attente"; any other
literal value is rejected by create, and by update through
`runValidators`. -/
theorem reservation_status_enum_holds :
    (∀ now b d, createReservation now b = Except.ok d → d.status ∈ statusEnum) ∧
    (∀ now b d, b.status = none → createReservation now b = Except.ok d →
      d.status = "en attente") ∧
    (∀ now b s, b.status = some s → s ∉ statusEnum →
      ∃ e, createReservation now b = Except.error e) ∧
    (∀ doc b d, doc.status ∈ statusEnum → updateReservation doc b = Except.ok d →
      d.status ∈ statusEnum) ∧
    (∀ doc b s, b.status = some s → s ∉ statusEnum →
      ∃ e, updateReservation doc b = Except.error e) := by
  refine ⟨?_, ?_, ?_, ?_, ?_⟩
  · intro now b d h
    unfold createReservation at h
    split at h
    · rename_i hg
      simp only [Except.ok.injEq] at h
      subst h
      have hc : statusEnum.contains (b.status.getD "en attente") = true :=
        ((Bool.and_eq_true _ _).mp hg).2
      simpa using hc
    · exact absurd h (by simp)
  · intro now b d hb h
    unfold createReservation at h
    split at h
    · simp only [Except.ok.injEq] at h
      subst h
      simp [hb]
    · exact absurd h (by simp)
  · intro now b s hb hs
    refine ⟨"Reservation validation failed", ?_⟩
    unfold createReservation
    split
    · rename_i hg
      have hc : statusEnum.contains (b.status.getD "en attente") = true :=
        ((Bool.and_eq_true _ _).mp hg).2
      exact absurd (by simpa [hb] using hc) hs
    · rfl
  · intro doc b d hdoc h
    unfold updateReservation at h
    split at h
    · rename_i hcond
      simp only [Except.ok.injEq] at h
      subst h
      cases hb : b.status with
      | some s =>
        rw [hb] at hcond
        simp only [hb, Option.getD_some]
        simpa [Option.all] using hcond
      | none =>
        simpa [hb] using hdoc
    · exact absurd h (by simp)
  · intro doc b s hb hs
    refine ⟨"Validation failed: status is not a valid enum value", ?_⟩
    unfold updateReservation
    split
    · rename_i hcond
      rw [hb] at hcond
      exact absurd (by simpa [Option.all] using hcond) hs
    · rfl

/-- Witness for the amended C1: a concrete create with no status yields
the default "en attente", which is in the enum. -/
theorem reservation_status_enum_holds_witness :
    ("en attente" : String) ∈ statusEnum :=
  reservation_status_enum_holds.1 0
    ⟨some "v1", some "Clio", some 1, some 2, some "TN-1234",
     some "Tunis", some "Sousse", none, none⟩
    ⟨"v1", "Clio", 1, 2, "TN-1234", "Tunis", "Sousse", "en attente", 0⟩ rfl

/-! ## Claim C2: list ordering by creation time -/

/-- Claim C2 counterexample: two distinct vehicles created first A then B.
`vehicleSchema` stores no `createdAt` field, so the sort key is missing
on both, every pair ties, and the list keeps them in insertion order:
A is returned before B, not B before A as the claim requires. -/
theorem vehicle_list_creation_order_cex :
    listVehiclesSorted
        [⟨"Car A", "a.jpg", [], "100", [], "first", 5, false,
          ⟨"manual", "petrol", none, 5, "6L", none⟩⟩,
         ⟨"Car B", "b.jpg", [], "200", [], "second", 5, false,
          ⟨"manual", "petrol", none, 5, "6L", none⟩⟩]
      = [⟨"Car A", "a.jpg", [], "100", [], "first", 5, false,
          ⟨"manual", "petrol", none, 5, "6L", none⟩⟩,
         ⟨"Car B", "b.jpg", [], "200", [], "second", 5, false,
          ⟨"manual", "petrol", none, 5, "6L", none⟩⟩] ∧
    (⟨"Car A", "a.jpg", [], "100", [], "first", 5, false,
      ⟨"manual", "petrol", none, 5, "6L", none⟩⟩ : VehicleDoc)
      ≠ ⟨"Car B", "b.jpg", [], "200", [], "second", 5, false,
         ⟨"manual", "petrol", none, 5, "6L", none⟩⟩ := by
  exact ⟨rfl, by decide⟩

/-- Claim C2 (amended): `GET /api/reservations` orders by `createdAt`
descending, so a reservation created strictly later comes first; vehicles
store no `createdAt`, so all vehicle sort keys tie and the list comes back
in the insertion order of the store, A before B. -/
theorem list_sort_createdAt_desc (rA rB : ReservationDoc) (vA vB : VehicleDoc)
    (h : rA.createdAt < rB.createdAt) :
    listReservationsSorted [rA, rB] = [rB, rA] ∧
    listVehiclesSorted [vA, vB] = [vA, vB] := by
  constructor
  · have h1 : keyVal (some rA.createdAt) < keyVal (some rB.createdAt) := by
      simp only [keyVal]
      omega
    simp [listReservationsSorted, sortDesc, insertDesc, h1]
  · simp [listVehiclesSorted, sortDesc, insertDesc, keyVal]

/-- Witness for the amended C2, on concrete stores. -/
theorem list_sort_createdAt_desc_witness :
    listReservationsSorted
        [⟨"v1", "Clio", 1, 2, "L1", "Tunis", "Sousse", "en attente", 10⟩,
         ⟨"v2", "208", 3, 4, "L2", "Tunis", "Sfax", "en cours", 20⟩]
      = [⟨"v2", "208", 3, 4, "L2", "Tunis", "Sfax", "en cours", 20⟩,
         ⟨"v1", "Clio", 1, 2, "L1", "Tunis", "Sousse", "en attente", 10⟩] ∧
    listVehiclesSorted
        [⟨"Car A", "a.jpg", [], "100", [], "first", 5, false,
          ⟨"auto", "diesel", none, 5, "5L", none⟩⟩,
         ⟨"Car B", "b.jpg", [], "200", [], "second", 5, true,
          ⟨"auto", "diesel", none, 5, "5L", none⟩⟩]
      = [⟨"Car A", "a.jpg", [], "100", [], "first", 5, false,
          ⟨"auto", "diesel", none, 5, "5L", none⟩⟩,
         ⟨"Car B", "b.jpg", [], "200", [], "second", 5, true,
          ⟨"auto", "diesel", none, 5, "5L", none⟩⟩] :=
  list_sort_createdAt_desc
    ⟨"v1", "Clio", 1, 2, "L1", "Tunis", "Sousse", "en attente", 10⟩
    ⟨"v2", "208", 3, 4, "L2", "Tunis", "Sfax", "en cours", 20⟩
    ⟨"Car A", "a.jpg", [], "100", [], "first", 5, false,
     ⟨"auto", "diesel", none, 5, "5L", none⟩⟩
    ⟨"Car B", "b.jpg", [], "200", [], "second", 5, true,
     ⟨"auto", "diesel", none, 5, "5L", none⟩⟩
    (by decide)

/-! ## Claim C3: the upload validator -/

/-- Claim C3 counterexample: the code checks the regex
`/jpeg|jpg|png|gif/` as a case-sensitive substring test, not the claimed
case-insensitive equality.  The file a.jpgx (media type image/jpeg) is
accepted by the code though its extension equals none of jpg, jpeg, png,
gif; the file a.jpg with upper-cased media type IMAGE/JPEG is rejected by
the code though the claim accepts it. -/
theorem upload_validator_equality_cex :
    fileFilter "image/jpeg" "a.jpgx" = true ∧
    specUploadAccepts "image/jpeg" "a.jpgx" = false ∧
    fileFilter "IMAGE/JPEG" "a.jpg" = false ∧
    specUploadAccepts "IMAGE/JPEG" "a.jpg" = true := by
  decide

/-- Claim C3 (amended): the validator accepts exactly when one of the
four literals jpeg, jpg, png, gif occurs as a substring of the declared
media type, case-sensitively, and one of them occurs as a substring of
the lower-cased extension of the filename; if either check fails the
whole validation fails. -/
theorem upload_validator_substring_test (m f : String) :
    fileFilter m f = true ↔
      (("jpeg".data <:+: m.data ∨ "jpg".data <:+: m.data ∨
        "png".data <:+: m.data ∨ "gif".data <:+: m.data) ∧
       ("jpeg".data <:+: (lowerStr (extname f)).data ∨
        "jpg".data <:+: (lowerStr (extname f)).data ∨
        "png".data <:+: (lowerStr (extname f)).data ∨
        "gif".data <:+: (lowerStr (extname f)).data)) := by
  simp only [fileFilter, regexTest, substrTest_iff, Bool.and_eq_true, Bool.or_eq_true]
  tauto

/-- Witness for the amended C3: the concrete acceptance of car.JPG with
media type image/jpeg follows from the substring characterization. -/
theorem upload_validator_substring_test_witness :
    fileFilter "image/jpeg" "car.JPG" = true :=
  (upload_validator_substring_test "image/jpeg" "car.JPG").mpr
    (by constructor <;> decide)

/-! ## Claim C4: the error-status taxonomy -/

/-- Claim C4 counterexample: an upload of notes.txt with media type
text/plain is rejected by the multer fileFilter, whose error bypasses the
route handler and reaches the fallback error middleware: the response is
500 with the generic message, not the 400 the claim requires for an
invalid uploaded file type. -/
theorem upload_reject_status_cex :
    (uploadSingleResp "production" 0 0 (some ⟨"text/plain", "notes.txt"⟩)).status = 500 ∧
    (uploadSingleResp "production" 0 0 (some ⟨"text/plain", "notes.txt"⟩)).status ≠ 400 ∧
    (uploadSingleResp "production" 0 0 (some ⟨"text/plain", "notes.txt"⟩)).message
      = some "Something went wrong!" := by
  decide

/-- Claim C4 (amended): absent ids yield 404 and a missing upload file
yields 400, as claimed; but an invalid uploaded file type/extension is
answered by the fallback handler with 500 and the generic message, and
unexpected failures map to 500 only in the list, get-by-id and delete
handlers, while the create and update handlers turn every thrown error,
unexpected or not, into 400. -/
theorem error_status_mapping (e nodeEnv : String) (nowMs rand : Nat) :
    (getVehicleByIdResp (Except.ok none)).status = 404 ∧
    (putVehicleResp (Except.ok none)).status = 404 ∧
    (deleteVehicleResp (Except.ok none)).status = 404 ∧
    (postVehicleResp (Except.error e)).status = 400 ∧
    (putVehicleResp (Except.error e)).status = 400 ∧
    (uploadSingleResp nodeEnv nowMs rand none).status = 400 ∧
    (listVehiclesResp (Except.error e)).status = 500 ∧
    (getVehicleByIdResp (Except.error e)).status = 500 ∧
    (deleteVehicleResp (Except.error e)).status = 500 ∧
    (uploadSingleResp nodeEnv nowMs rand (some ⟨"text/plain", "notes.txt"⟩)).status = 500 ∧
    (uploadSingleResp nodeEnv nowMs rand (some ⟨"text/plain", "notes.txt"⟩)).message
      = some "Something went wrong!" := by
  have hf : fileFilter "text/plain" "notes.txt" = false := by decide
  refine ⟨rfl, rfl, rfl, rfl, rfl, rfl, rfl, rfl, rfl, ?_, ?_⟩ <;>
    simp [uploadSingleResp, hf, errorHandlerResp]

/-! ## Claim C5: the Reservation endpoints mirror the Vehicle endpoints -/

/-- Claim C5 counterexample: server.js registers no route for
`GET /api/reservations/:id`.  A GET for the id of an existing reservation
falls through to the framework default and is answered 404, not 200 with
the Reservation. -/
theorem get_reservation_by_id_missing_cex :
    hasRoute Method.get PathPat.reservationById = false ∧
    dispatchGetByIdStatus Entity.reservation true = 404 ∧
    dispatchGetByIdStatus Entity.reservation true ≠ 200 := by
  decide

/-- Claim C5 (amended): the Reservation routes mirror the Vehicle routes
for list, create, update and delete, with the same status shapes, but the
by-id GET exists only for vehicles: every `GET /api/reservations/:id`
request is unmatched and falls through to a 404, whether or not the id
exists. -/
theorem reservation_routes_mirror (e : String) (present : Bool) :
    (hasRoute Method.get PathPat.vehicles = true ∧
     hasRoute Method.get PathPat.reservations = true) ∧
    (hasRoute Method.post PathPat.vehicles = true ∧
     hasRoute Method.post PathPat.reservations = true) ∧
    (hasRoute Method.put PathPat.vehicleById = true ∧
     hasRoute Method.put PathPat.reservationById = true) ∧
    (hasRoute Method.delete PathPat.vehicleById = true ∧
     hasRoute Method.delete PathPat.reservationById = true) ∧
    (hasRoute Method.get PathPat.vehicleById = true ∧
     hasRoute Method.get PathPat.reservationById = false) ∧
    dispatchGetByIdStatus Entity.reservation present = 404 ∧
    (dispatchGetByIdStatus Entity.vehicle present = if present then 200 else 404) ∧
    (listReservationsResp (Except.error e)).status
      = (listVehiclesResp (Except.error e)).status ∧
    (postReservationResp (Except.error e)).status
      = (postVehicleResp (Except.error e)).status ∧
    (putReservationResp (Except.ok none)).status = (putVehicleResp (Except.ok none)).status ∧
    (putReservationResp (Except.error e)).status
      = (putVehicleResp (Except.error e)).status ∧
    (deleteReservationResp (Except.ok none)).status
      = (deleteVehicleResp (Except.ok none)).status ∧
    (deleteReservationResp (Except.error e)).status
      = (deleteVehicleResp (Except.error e)).status := by
  cases present <;>
    exact ⟨by decide, by decide, by decide, by decide, by decide, by decide, by decide,
           rfl, rfl, rfl, rfl, rfl, rfl⟩

/-! ## Claim C6: error detail exposure across deployment modes -/

/-- Claim C6 counterexample: the list handler attaches `error.message` to
its JSON body unconditionally, so in production-like configuration two
runs differing only in the underlying internal message produce different
response bodies. -/
theorem route_error_detail_leak_cex :
    (listVehiclesResp (Except.error "ECONNRESET at pool")).errorDetail
      = some "ECONNRESET at pool" ∧
    (listVehiclesResp (Except.error "ECONNRESET at pool")).errorDetail
      ≠ (listVehiclesResp (Except.error "socket timeout")).errorDetail := by
  decide

/-- Claim C6 (amended): only the fallback error middleware gates the
underlying detail on the deployment-mode flag; every per-route catch
branch attaches `error.message` to the body unconditionally, in every
deployment mode. -/
theorem error_detail_exposure (nodeEnv e : String) :
    (nodeEnv ≠ "development" → (errorHandlerResp Unit nodeEnv e).errorDetail = none) ∧
    (errorHandlerResp Unit "development" e).errorDetail = some e ∧
    (listVehiclesResp (Except.error e)).errorDetail = some e ∧
    (getVehicleByIdResp (Except.error e)).errorDetail = some e ∧
    (postVehicleResp (Except.error e)).errorDetail = some e ∧
    (putVehicleResp (Except.error e)).errorDetail = some e ∧
    (deleteVehicleResp (Except.error e)).errorDetail = some e ∧
    (listReservationsResp (Except.error e)).errorDetail = some e ∧
    (postReservationResp (Except.error e)).errorDetail = some e ∧
    (putReservationResp (Except.error e)).errorDetail = some e ∧
    (deleteReservationResp (Except.error e)).errorDetail = some e := by
  refine ⟨?_, rfl, rfl, rfl, rfl, rfl, rfl, rfl, rfl, rfl, rfl⟩
  intro h
  simp [errorHandlerResp, h]

/-- Witness for the amended C6 at a concrete production-mode failure. -/
theorem error_detail_exposure_witness :
    (errorHandlerResp Unit "production" "boom").errorDetail = none ∧
    (listVehiclesResp (Except.error "boom")).errorDetail = some "boom" :=
  ⟨(error_detail_exposure "production" "boom").1 (by decide),
   (error_detail_exposure "production" "boom").2.2.1⟩

/-! ## Claim C7: partial update replaces only the provided fields -/

/-- Claim C7: `findByIdAndUpdate(id, body, new:true)` on an existing
record returns the post-update record in which every field of the payload
is replaced and every field absent from the payload keeps its prior
value. -/
theorem update_partial_frame {α : Type} (store : List (String × FieldMap α)) (id : String)
    (r body : FieldMap α) (h : findRec store id = some r) :
    findByIdAndUpdate store id body = some (applySet r body) ∧
    (∀ k, body k = none → applySet r body k = r k) ∧
    (∀ k v, body k = some v → applySet r body k = some v) := by
  refine ⟨?_, ?_, ?_⟩
  · simp [findByIdAndUpdate, h]
  · intro k hk
    simp [applySet, hk]
  · intro k v hk
    simp [applySet, hk]

/-- Witness for C7: a price-only payload on a concrete stored record
leaves name untouched and replaces price. -/
theorem update_partial_frame_witness :
    findByIdAndUpdate
        [("a1b2c3", fun k => if k = "price" then some "100"
                             else if k = "name" then some "Clio" else none)]
        "a1b2c3" (fun k => if k = "price" then some "80" else none)
      = some (applySet
          (fun k => if k = "price" then some "100"
                    else if k = "name" then some "Clio" else none)
          (fun k => if k = "price" then some "80" else none)) ∧
    applySet
        (fun k => if k = "price" then some "100"
                  else if k = "name" then some "Clio" else none)
        (fun k => if k = "price" then some "80" else none) "name" = some "Clio" ∧
    applySet
        (fun k => if k = "price" then some "100"
                  else if k = "name" then some "Clio" else none)
        (fun k => if k = "price" then some "80" else none) "price" = some "80" := by
  refine ⟨(update_partial_frame
        [("a1b2c3", fun k => if k = "price" then some "100"
                             else if k = "name" then some "Clio" else none)]
        "a1b2c3" (fun k => if k = "price" then some "100"
                           else if k = "name" then some "Clio" else none)
        (fun k => if k = "price" then some "80" else none) rfl).1, ?_, ?_⟩
  · have := (update_partial_frame
        [("a1b2c3", fun k => if k = "price" then some "100"
                             else if k = "name" then some "Clio" else none)]
        "a1b2c3" (fun k => if k = "price" then some "100"
                           else if k = "name" then some "Clio" else none)
        (fun k => if k = "price" then some "80" else none) rfl).2.1 "name" (by decide)
    rw [this]
    decide
  · exact (update_partial_frame
        [("a1b2c3", fun k => if k = "price" then some "100"
                             else if k = "name" then some "Clio" else none)]
        "a1b2c3" (fun k => if k = "price" then some "100"
                           else if k = "name" then some "Clio" else none)
        (fun k => if k = "price" then some "80" else none) rfl).2.2 "price" "80" (by decide)

/-! ## Claim C8: createdAt immutability -/

/-- Claim C8 counterexample: nothing marks `createdAt` immutable, so an
update payload carrying `createdAt` overwrites the stored value: a
reservation created at 100 updates to 200. -/
theorem reservation_createdAt_update_cex :
    updateReservation ⟨"v1", "Clio", 1, 2, "L1", "Tunis", "Sousse", "en attente", 100⟩
        ⟨none, none, none, none, none, none, none, none, some 200⟩
      = Except.ok ⟨"v1", "Clio", 1, 2, "L1", "Tunis", "Sousse", "en attente", 200⟩ ∧
    (200 : Nat) ≠ 100 := by
  exact ⟨rfl, by decide⟩

/-- Claim C8 (amended): `createdAt` is set at creation (defaulting to the
current time when the payload omits it) and is preserved by every update
whose payload does not include `createdAt`; a payload that does include
it overwrites the stored value. -/
theorem reservation_createdAt_frame (now : Nat) (b : ReservationBody)
    (doc d₁ d₂ : ReservationDoc) (hb : b.createdAt = none) :
    (createReservation now b = Except.ok d₁ → d₁.createdAt = now) ∧
    (updateReservation doc b = Except.ok d₂ → d₂.createdAt = doc.createdAt) := by
  constructor
  · intro h
    unfold createReservation at h
    split at h
    · simp only [Except.ok.injEq] at h
      subst h
      simp [hb]
    · exact absurd h (by simp)
  · intro h
    unfold updateReservation at h
    split at h
    · simp only [Except.ok.injEq] at h
      subst h
      simp [hb]
    · exact absurd h (by simp)

/-- Witness for the amended C8: a concrete create stamps the supplied
clock value 7, and a concrete update without `createdAt` in its payload
keeps the stored value 100. -/
theorem reservation_createdAt_frame_witness :
    (⟨"v1", "Clio", 1, 2, "L1", "Tunis", "Sousse", "en attente", 7⟩
      : ReservationDoc).createdAt = 7 ∧
    (⟨"v1", "Clio", 1, 2, "L1", "Tunis", "Sousse", "en cours", 100⟩
      : ReservationDoc).createdAt
      = (⟨"OLD", "Old", 9, 9, "OL", "X", "Y", "en cours", 100⟩
          : ReservationDoc).createdAt :=
  ⟨(reservation_createdAt_frame 7
      ⟨some "v1", some "Clio", some 1, some 2, some "L1",
       some "Tunis", some "Sousse", none, none⟩
      ⟨"OLD", "Old", 9, 9, "OL", "X", "Y", "en cours", 100⟩
      ⟨"v1", "Clio", 1, 2, "L1", "Tunis", "Sousse", "en attente", 7⟩
      ⟨"v1", "Clio", 1, 2, "L1", "Tunis", "Sousse", "en cours", 100⟩ rfl).1 rfl,
   (reservation_createdAt_frame 7
      ⟨some "v1", some "Clio", some 1, some 2, some "L1",
       some "Tunis", some "Sousse", none, none⟩
      ⟨"OLD", "Old", 9, 9, "OL", "X", "Y", "en cours", 100⟩
      ⟨"v1", "Clio", 1, 2, "L1", "Tunis", "Sousse", "en attente", 7⟩
      ⟨"v1", "Clio", 1, 2, "L1", "Tunis", "Sousse", "en cours", 100⟩ rfl).2 rfl⟩

/-! ## Claim C9: the generated filename format -/

/-- Claim C9: for every upload the fileFilter accepts, the stored
filename is exactly the millisecond timestamp, a dash, the random
integer, a dot, and the lower-cased extension of the original filename
preserved verbatim (the filename generator applies no further
validation). -/
theorem upload_filename_format (nowMs rand : Nat) (m f : String)
    (hacc : fileFilter m f = true) :
    filenameFor nowMs rand f
      = toString nowMs ++ "-" ++ toString rand ++ "."
          ++ String.mk ((lowerStr (extname f)).data.drop 1) ∧
    "." ++ String.mk ((lowerStr (extname f)).data.drop 1) = lowerStr (extname f) := by
  have hext : regexTest (lowerStr (extname f)) = true :=
    ((Bool.and_eq_true _ _).mp hacc).2
  rcases extnameList_shape f.data with hnil | ⟨t, ht⟩
  · exfalso
    have hempty : lowerStr (extname f) = "" := by
      show String.mk ((extnameList f.data).map Char.toLower) = ""
      rw [hnil]
      rfl
    rw [hempty] at hext
    exact absurd hext (by decide)
  · have hlow : Char.toLower '.' = '.' := by decide
    have hd : lowerStr (extname f) = "." ++ String.mk (t.map Char.toLower) := by
      show String.mk ((extnameList f.data).map Char.toLower) = _
      rw [ht, List.map_cons, hlow]
      rfl
    constructor
    · unfold filenameFor
      rw [hd, ← String.append_assoc]
      rfl
    · rw [hd]
      rfl

/-- Witness for C9 at a concrete accepted upload: a PNG with upper-cased
extension. -/
theorem upload_filename_format_witness :
    fileFilter "image/png" "Car Photo.PNG" = true ∧
    (filenameFor 1730 123 "Car Photo.PNG"
       = toString 1730 ++ "-" ++ toString 123 ++ "."
           ++ String.mk ((lowerStr (extname "Car Photo.PNG")).data.drop 1) ∧
     "." ++ String.mk ((lowerStr (extname "Car Photo.PNG")).data.drop 1)
       = lowerStr (extname "Car Photo.PNG")) :=
  ⟨by decide, upload_filename_format 1730 123 "image/png" "Car Photo.PNG" (by decide)⟩

/-! ## Claim C10: malformed ids on GET /api/vehicles/:id -/

/-- Claim C10: a syntactically invalid id makes `findById` throw a
CastError, the catch branch answers 500 with an error body, never 404 and
never a crash; the 404 branch is reached exactly for well-formed ids
absent from the store. -/
theorem get_vehicle_invalid_id_500 (store : List (String × VehicleDoc)) (id : String) :
    (isValidObjectId id = false →
      (getVehicleByIdRoute store id).status = 500 ∧
      (getVehicleByIdRoute store id).message = some "Error fetching vehicle" ∧
      (getVehicleByIdRoute store id).status ≠ 404) ∧
    ((getVehicleByIdRoute store id).status = 404 ↔
      isValidObjectId id = true ∧ store.find? (fun kv => kv.1 == id) = none) := by
  unfold getVehicleByIdRoute vehicleFindById
  cases hv : isValidObjectId id with
  | false => simp [hv, getVehicleByIdResp]
  | true =>
    cases hfind : store.find? (fun kv => kv.1 == id) with
    | none => simp [hv, hfind, getVehicleByIdResp]
    | some kv => simp [hv, hfind, getVehicleByIdResp]

/-- Witness for C10: a concrete malformed id on the empty store. -/
theorem get_vehicle_invalid_id_500_witness :
    (getVehicleByIdRoute [] "not-a-valid-objectid").status = 500 ∧
    (getVehicleByIdRoute [] "not-a-valid-objectid").message = some "Error fetching vehicle" ∧
    (getVehicleByIdRoute [] "not-a-valid-objectid").status ≠ 404 :=
  (get_vehicle_invalid_id_500 [] "not-a-valid-objectid").1 (by decide)
